import Mathlib

/-!
Shallow embedding of the repository's three Python files
(decorators.py, dictionary.py, lambda_practice.py) and proofs about
the access-guard decorator, the dictionary operations and the lambda
examples.
-/

/-- Python runtime values occurring in this repository: None, booleans,
integers, and strings. -/
inductive PyVal : Type where
  | VNone : PyVal
  | VBool : Bool → PyVal
  | VInt : Int → PyVal
  | VStr : String → PyVal
deriving DecidableEq, Repr

open PyVal

/-- A Python dict with string keys, modelled as an association list in
insertion order (keys unique in all dicts built here). -/
abbrev Dict := List (String × PyVal)

/-- Python loose equality, as used by the source's comparison with the
boolean False. In Python, True == 1 and False == 0 hold across the
bool/int types; None and strings are equal only to themselves. -/
def pyEq : PyVal → PyVal → Bool
  | VNone, VNone => true
  | VBool a, VBool b => a == b
  | VBool a, VInt n => (if a then (1 : Int) else 0) == n
  | VInt n, VBool b => n == (if b then (1 : Int) else 0)
  | VInt m, VInt n => m == n
  | VStr s, VStr t => s == t
  | _, _ => false

/-- Python str() conversion as performed by an f-string interpolation. -/
def pyStr : PyVal → String
  | VNone => "None"
  | VBool true => "True"
  | VBool false => "False"
  | VInt n => toString n
  | VStr s => s

/-- Python dict.get(key, default): the value at the first matching key,
or the default when the key is absent. Never raises. -/
def dict_get : Dict → String → PyVal → PyVal
  | [], _, dflt => dflt
  | (k, v) :: rest, key, dflt => if k == key then v else dict_get rest key dflt

/-- Python dict.get(key) with the implicit default None. -/
def dict_getN (d : Dict) (key : String) : PyVal :=
  dict_get d key VNone

/-- Setting one key of a Python dict: an existing key keeps its position
and gets the new value; a new key is appended at the end. -/
def dict_set : Dict → String → PyVal → Dict
  | [], key, v => [(key, v)]
  | (k, w) :: rest, key, v =>
      if k == key then (k, v) :: rest else (k, w) :: dict_set rest key v

/-- Python dict.update(other): sets every key/value pair of the other
dict, in place, in order. -/
def dict_update (d : Dict) (u : Dict) : Dict :=
  u.foldl (fun acc kv => dict_set acc kv.1 kv.2) d

/-- The decorator require_login from decorators.py, lines 1 to 6.
The inner wrapper denies when user.get("isLoggedIn") == False under
Python loose equality, and otherwise delegates to func. -/
def require_login (func : Dict → PyVal) : Dict → PyVal :=
  fun user =>
    if pyEq (dict_getN user "isLoggedIn") (VBool false) then VStr "Access Denied"
    else func user

/-- The undecorated body of access_dashboard from decorators.py, an
f-string greeting the user by the looked-up name. -/
def access_dashboard_body (user : Dict) : PyVal :=
  VStr ("Welcome " ++ pyStr (dict_getN user "name") ++ ". Access to the dashboard.")

/-- access_dashboard as bound in decorators.py: the body wrapped by the
require_login decorator. -/
def access_dashboard : Dict → PyVal :=
  require_login access_dashboard_body

/-- The user1 literal of decorators.py. -/
def user1 : Dict := [("name", VStr "Dheeraj"), ("isLoggedIn", VBool true)]

/-- The user2 literal of decorators.py. -/
def user2 : Dict := [("name", VStr "Guest"), ("isLoggedIn", VBool false)]

/-- A test identity with no login-state key at all. -/
def ghost : Dict := [("name", VStr "Ghost")]

/-- A test identity whose login-state value is the integer 0. -/
def userZero : Dict := [("name", VStr "Zero"), ("isLoggedIn", VInt 0)]

/-- Calling a guarded operation twice with the same record. -/
def call_twice (g : Dict → PyVal) (u : Dict) : PyVal × PyVal := (g u, g u)

/-- The require_login wrapper with the wrapped operation's possible
exceptions made explicit: func may fail with an error of type ε; the
guard's own steps (dict lookup, loose comparison) are total and its
denial branch returns normally. Same source as require_login. -/
def require_loginE {ε : Type} (func : Dict → Except ε PyVal) (user : Dict) :
    Except ε PyVal :=
  if pyEq (dict_getN user "isLoggedIn") (VBool false) then Except.ok (VStr "Access Denied")
  else func user

/-- The person literal of dictionary.py, line 1. -/
def person : Dict := [("name", VStr "Alice"), ("age", VInt 25)]

/-- The state of person after person.update on dictionary.py line 23. -/
def personUpdated : Dict := dict_update person [("city", VStr "NY")]

/-- The first square binding of lambda_practice.py: lambda x: x*x. -/
def square : Int → Int := fun x => x * x

/-- The power closure factory of lambda_practice.py: power(num) returns
lambda x: x**num. -/
def power (num : Nat) : Int → Int := fun x => x ^ num

/-- Claim C1 (code bug witness): for the identity record with no
"isLoggedIn" key at all, the guard does NOT return the denial marker;
dict.get yields None, None is not loosely equal to False, so the guard
fails open and invokes the wrapped operation, returning its result. -/
theorem missing_flag_fails_open :
    require_login access_dashboard_body ghost = access_dashboard_body ghost ∧
    access_dashboard_body ghost = VStr "Welcome Ghost. Access to the dashboard." ∧
    require_login access_dashboard_body ghost ≠ VStr "Access Denied" := by
  refine ⟨rfl, by decide, ?_⟩
  decide

/-- Claim C2, counterexample: the identity with isLoggedIn set to the
integer 0 carries a value other than the boolean false, yet the guard
returns the denial marker and does not invoke the wrapped operation,
because 0 == False holds under Python loose equality. -/
theorem zero_flag_denied :
    dict_getN userZero "isLoggedIn" = VInt 0 ∧
    VInt 0 ≠ VBool false ∧
    require_login access_dashboard_body userZero = VStr "Access Denied" ∧
    require_login access_dashboard_body userZero ≠ access_dashboard_body userZero := by
  refine ⟨rfl, by decide, rfl, ?_⟩
  decide

/-- Claim C2, amended: for every identity record whose login-state value
is not loosely equal to False under Python equality (anything other than
boolean False and numeric zero; in particular None and the empty string),
the guard treats the caller as permitted and returns exactly the wrapped
operation's result. -/
theorem nonfalse_flag_permits (func : Dict → PyVal) (user : Dict) (v : PyVal)
    (hv : dict_getN user "isLoggedIn" = v)
    (h : pyEq v (VBool false) = false) :
    require_login func user = func user := by
  unfold require_login
  rw [hv, h]
  simp

/-- Witness for nonfalse_flag_permits at user1, whose login-state value
is the boolean true. -/
theorem nonfalse_flag_permits_witness :
    dict_getN user1 "isLoggedIn" = VBool true ∧
    pyEq (VBool true) (VBool false) = false ∧
    require_login access_dashboard_body user1 = access_dashboard_body user1 :=
  ⟨rfl, by decide,
    nonfalse_flag_permits access_dashboard_body user1 (VBool true) rfl (by decide)⟩

/-- Claim C3: for every identity record whose login-state attribute is
exactly the boolean false, the guard returns the fixed denial marker, and
the result does not depend on the wrapped operation (so the wrapped
operation is never invoked). -/
theorem false_flag_denies (f g : Dict → PyVal) (user : Dict)
    (h : dict_getN user "isLoggedIn" = VBool false) :
    require_login f user = VStr "Access Denied" ∧
    require_login f user = require_login g user := by
  unfold require_login
  rw [h]
  exact ⟨rfl, rfl⟩

/-- Witness for false_flag_denies at user2, with two different wrapped
operations. -/
theorem false_flag_denies_witness :
    dict_getN user2 "isLoggedIn" = VBool false ∧
    require_login access_dashboard_body user2 = VStr "Access Denied" ∧
    require_login access_dashboard_body user2 = require_login (fun _ => VNone) user2 :=
  ⟨rfl,
    (false_flag_denies access_dashboard_body (fun _ => VNone) user2 rfl).1,
    (false_flag_denies access_dashboard_body (fun _ => VNone) user2 rfl).2⟩

/-- Claim C4: for every identity record whose login-state attribute is
the boolean true, the guarded operation returns exactly the value the
wrapped operation returns for that identity. -/
theorem true_flag_delegates (func : Dict → PyVal) (user : Dict)
    (h : dict_getN user "isLoggedIn" = VBool true) :
    require_login func user = func user := by
  unfold require_login
  rw [h]
  simp [pyEq]

/-- Witness for true_flag_delegates at user1. -/
theorem true_flag_delegates_witness :
    dict_getN user1 "isLoggedIn" = VBool true ∧
    require_login access_dashboard_body user1 = access_dashboard_body user1 :=
  ⟨rfl, true_flag_delegates access_dashboard_body user1 rfl⟩

/-- Claim C5: for the identity record user2 (name Guest, isLoggedIn
false), the guarded dashboard operation returns the string
"Access Denied". -/
theorem guest_denied : access_dashboard user2 = VStr "Access Denied" := rfl

/-- Claim C6: for the identity record user1 (name Dheeraj, isLoggedIn
true), the guarded dashboard operation returns the welcome string. -/
theorem dheeraj_welcome :
    access_dashboard user1 = VStr "Welcome Dheeraj. Access to the dashboard." := rfl

/-- Claim C7: invoking the guarded operation twice with the same
identity record yields the same outcome both times; the guard is a pure
function of its arguments with no hidden state. -/
theorem guard_deterministic (func : Dict → PyVal) (user : Dict) :
    (call_twice (require_login func) user).1 = (call_twice (require_login func) user).2 :=
  rfl

/-- Claim C8: for every identity record, the guarded operation either
returns the denial marker normally or returns exactly what the wrapped
operation returns; the guard itself introduces no error, so any failure
comes from the wrapped operation and propagates unchanged. -/
theorem guard_no_own_errors {ε : Type} (func : Dict → Except ε PyVal) (user : Dict) :
    require_loginE func user = Except.ok (VStr "Access Denied") ∨
    require_loginE func user = func user := by
  unfold require_loginE
  split
  · exact Or.inl rfl
  · exact Or.inr rfl

/-- Claim C9: after person.update with the single key "city" mapped to
"NY", the keys "name" and "age" still map to their original values, no
key is removed (the result is the original list with the new pair
appended), and "city" maps to "NY". -/
theorem update_frame :
    dict_get personUpdated "age" (VInt 0) = VInt 25 ∧
    dict_getN personUpdated "name" = VStr "Alice" ∧
    dict_getN personUpdated "city" = VStr "NY" ∧
    personUpdated = [("name", VStr "Alice"), ("age", VInt 25), ("city", VStr "NY")] := by
  refine ⟨rfl, rfl, rfl, rfl⟩

/-- Claim C10: for every integer x and natural exponent n, the closure
returned by power satisfies power n x = x ^ n; in particular power 2 is
extensionally equal to the squaring lambda square. -/
theorem power_spec (n : Nat) (x : Int) :
    power n x = x ^ n ∧ power 2 x = square x := by
  constructor
  · rfl
  · show x ^ 2 = x * x
    exact pow_two x
